import Mathlib

/-!
Verification of the quiz application (app.py): a fixed set of four legal-career
categories, a scorer that tallies per-question selections and picks the winner
with the built-in maximum search, a CSV result log with count and percentage
columns, a narrative provider with a static fallback, a question loader, and a
dashboard reader over the persisted log.

The Python source is shallowly embedded: dictionaries become association lists
(Python dicts iterate in insertion order, which the association-list order
models), exceptions become Option or Except, and the external services
(Gemini call, file system) become explicit inputs.
-/

set_option maxHeartbeats 1000000

namespace QuizApp

/-! ## Definitions: the embedded program -/

/-- The fixed category dictionary CARREIRAS, in source definition order:
code to display label. -/
def CARREIRAS : List (String × String) :=
  [("advocacia", "Advocacia"),
   ("magistratura", "Magistratura"),
   ("ministerio_publico", "Ministério Público"),
   ("consultoria", "Consultoria Jurídica")]

/-- The category codes in definition order (dict iteration order). -/
def carreiraCodes : List String := CARREIRAS.map Prod.fst

/-- The static fallback descriptions DESCRICOES_BASE, keyed by category code. -/
def DESCRICOES_BASE : List (String × String) :=
  [("advocacia",
    "A Advocacia envolve a defesa direta de interesses de clientes, atuação em audiências, negociação de acordos e elaboração de peças processuais."),
   ("magistratura",
    "A Magistratura é marcada pela imparcialidade e responsabilidade de decidir casos que impactam diretamente a vida das pessoas."),
   ("ministerio_publico",
    "O Ministério Público atua na defesa da ordem jurídica, do regime democrático e dos interesses sociais e individuais indisponíveis."),
   ("consultoria",
    "A Consultoria Jurídica concentra-se na prevenção de conflitos, elaboração de pareceres e estratégias jurídicas para empresas.")]

/-- The initial tally: every category of CARREIRAS mapped to zero, in
definition order (the dict comprehension on line 108 of app.py). -/
def initTally : List (String × Nat) := carreiraCodes.map (fun c => (c, 0))

/-- One increment step, resultados[r] += 1: if the key is present, add one to
its count; a missing key is a KeyError, modelled as none. -/
def bump (t : List (String × Nat)) (c : String) : Option (List (String × Nat)) :=
  if c ∈ t.map Prod.fst then
    some (t.map (fun p => if p.1 = c then (p.1, p.2 + 1) else p))
  else
    none

/-- The tally loop of calcular_resultados: for each response value r, if r is
truthy (a non-empty string) increment its category; propagate a KeyError. -/
def tallyFold (t : List (String × Nat)) : List String → Option (List (String × Nat))
  | [] => some t
  | r :: rest =>
    if r = "" then tallyFold t rest
    else
      match bump t r with
      | some t2 => tallyFold t2 rest
      | none => none

/-- The maximum search of Python max with key=resultados.get: keep the current
best, replace only on a strictly greater value, so the first key attaining the
maximum wins. -/
def pyMaxAux (best : String × Nat) : List (String × Nat) → String × Nat
  | [] => best
  | p :: rest => if best.2 < p.2 then pyMaxAux p rest else pyMaxAux best rest

/-- Python max over a dict with key=resultados.get, returning the key of the
first entry attaining the maximum value; none on an empty dict (ValueError). -/
def pyMax : List (String × Nat) → Option (String × Nat)
  | [] => none
  | b :: l => some (pyMaxAux b l)

/-- calcular_resultados (app.py lines 107-113): a ResponseSet is modelled by
its list of selected values (dict values in insertion order); returns the
tally together with the winning category, or none when an increment hits an
unknown category code (KeyError). -/
def calcular_resultados (respostas : List String) :
    Option (List (String × Nat) × String) :=
  match tallyFold initTally respostas with
  | none => none
  | some t =>
    match pyMax t with
    | none => none
    | some p => some (t, p.1)

/-- The maximum value occurring in a tally (zero on an empty one). -/
def maxCount (t : List (String × Nat)) : Nat :=
  t.foldr (fun p m => max p.2 m) 0

/-- The first entry of the tally, in its order, whose count equals the maximum
count; stated from the spec wording for the tie-break claim. -/
def primeiraMaxima (t : List (String × Nat)) : Option String :=
  (t.find? (fun p => p.2 = maxCount t)).map Prod.fst

/-- The environment of the Gemini call (app.py lines 62-104): whether loading
the google.generativeai module succeeded, the secret-store key (none models
both an absent key and an exception while reading the secret store), the
environment-variable key, and the outcome of the generate_content call
(none models any raised exception, some t a successful response text t). -/
structure GeminiEnv where
  gemini_ok : Bool
  secrets_key : Option String
  env_key : Option String
  service_response : Option String

/-- Python falsiness of an optional API key: absent or the empty string. -/
def falsyKey : Option String → Bool
  | none => true
  | some s => s = ""

/-- The key actually used: the secret-store key, or, when that is falsy, the
environment variable (lines 69-76). -/
def effectiveKey (env : GeminiEnv) : Option String :=
  if falsyKey env.secrets_key then env.env_key else env.secrets_key

/-- get_gemini_descricao: look up the static base description with default
empty string, return it when the import failed, when no key is configured, or
when the external call raises; on success return the response text trimmed. -/
def get_gemini_descricao (env : GeminiEnv) (carreira_codigo : String) : String :=
  let descricao_base := (DESCRICOES_BASE.lookup carreira_codigo).getD ""
  if !env.gemini_ok then descricao_base
  else if falsyKey (effectiveKey env) then descricao_base
  else
    match env.service_response with
    | none => descricao_base
    | some t => t.trim

/-- The external enrichment is unavailable or fails: the import failed, no
credential is configured, or the call raised. -/
def geminiCallUnavailable (env : GeminiEnv) : Bool :=
  !env.gemini_ok || falsyKey (effectiveKey env) || env.service_response.isNone

/-- One CSV cell: a string, an integer count, or a percentage; Python float
division is modelled by exact rationals. -/
inductive Cell where
  | str (s : String)
  | nat (n : Nat)
  | rat (q : ℚ)
deriving DecidableEq

/-- One row of the result log, as an ordered column-name-to-cell record. -/
abbrev Linha := List (String × Cell)

/-- The row dict built inside salvar_resultado_csv (app.py lines 117-127):
timestamp, name and winning category, then for every tally entry a pontos_
count column and a perc_ percentage column; the Python expression
sum(...) or 1 turns a zero total into denominator 1. -/
def linhaDe (timestamp nome : String) (resultados : List (String × Nat))
    (carreira_final : String) : Linha :=
  let s := (resultados.map Prod.snd).sum
  let total : Nat := if s = 0 then 1 else s
  [("timestamp", Cell.str timestamp), ("nome", Cell.str nome),
   ("carreira_final", Cell.str carreira_final)]
  ++ resultados.flatMap (fun p =>
      [("pontos_" ++ p.1, Cell.nat p.2),
       ("perc_" ++ p.1, Cell.rat ((p.2 : ℚ) / (total : ℚ) * 100))])

/-- The percentage cells of a row, in column order: exactly the values of the
perc_ columns, the only rational cells a row ever holds. -/
def percCells (l : Linha) : List ℚ :=
  l.filterMap (fun p => match p.2 with | Cell.rat q => some q | _ => none)

/-- One completed quiz submission as passed to salvar_resultado_csv, with the
timestamp that datetime.now produced for it. -/
structure Submissao where
  timestamp : String
  nome : String
  resultados : List (String × Nat)
  carreira_final : String
deriving DecidableEq

/-- The row salvar_resultado_csv builds for a submission. -/
def linhaSubmissao (sub : Submissao) : Linha :=
  linhaDe sub.timestamp sub.nome sub.resultados sub.carreira_final

/-- salvar_resultado_csv (app.py lines 116-137) as a transformation of the
durable file: none models an absent resultados.csv (the FileNotFoundError
branch starts a fresh one-row log), some rows its parsed contents; the new
row is concatenated after all existing rows and the whole log rewritten. -/
def salvar_resultado_csv (sub : Submissao) (file : Option (List Linha)) :
    List Linha :=
  let linha := linhaSubmissao sub
  match file with
  | none => [linha]
  | some rows => rows ++ [linha]

/-- A sequence of submissions applied to the durable file in order. -/
def runLog : List Submissao → Option (List Linha) → Option (List Linha)
  | [], file => file
  | sub :: rest, file => runLog rest (some (salvar_resultado_csv sub file))

/-- The column names of a row, in order. -/
def colunas (l : Linha) : List String := l.map Prod.fst

/-- The stable column set of the log: the three header columns followed by a
pontos_ and a perc_ column for every category of CARREIRAS. -/
def colunasFixas : List String :=
  ["timestamp", "nome", "carreira_final",
   "pontos_advocacia", "perc_advocacia",
   "pontos_magistratura", "perc_magistratura",
   "pontos_ministerio_publico", "perc_ministerio_publico",
   "pontos_consultoria", "perc_consultoria"]

/-- A JSON value, as json.load produces it. -/
inductive Json where
  | jnull
  | jbool (b : Bool)
  | jnum (n : Int)
  | jstr (s : String)
  | jarr (items : List Json)
  | jobj (fields : List (String × Json))

/-- Dictionary access on parsed JSON object fields. -/
def jsonLookup (k : String) : List (String × Json) → Option Json
  | [] => none
  | (k2, v) :: rest => if k2 = k then some v else jsonLookup k rest

/-- The state of the perguntas.json resource: absent (open raises
FileNotFoundError), present but not decodable (json.load raises
JSONDecodeError), or decodable to a JSON value. -/
inductive Resource where
  | missing
  | invalidJson
  | parsed (j : Json)

/-- The exceptions carregar_perguntas can raise. -/
inductive LoadError where
  | fileNotFound
  | jsonDecodeError
  | keyError
  | typeError
deriving DecidableEq

/-- carregar_perguntas (app.py lines 55-59): open and decode perguntas.json,
then return data["perguntas"] as-is; subscripting a non-object raises
TypeError and a missing key raises KeyError. No validation of the individual
questions is performed. -/
def carregar_perguntas : Resource → Except LoadError Json
  | Resource.missing => Except.error LoadError.fileNotFound
  | Resource.invalidJson => Except.error LoadError.jsonDecodeError
  | Resource.parsed (Json.jobj fields) =>
    match jsonLookup "perguntas" fields with
    | some v => Except.ok v
    | none => Except.error LoadError.keyError
  | Resource.parsed _ => Except.error LoadError.typeError

/-- The id field of a question object, when it is a JSON number. -/
def questionId (q : Json) : Option Int :=
  match q with
  | Json.jobj fields =>
    match jsonLookup "id" fields with
    | some (Json.jnum n) => some n
    | _ => none
  | _ => none

/-- Whether a question object lacks a required field or has an empty option
set. -/
def questionBad (q : Json) : Bool :=
  match q with
  | Json.jobj fields =>
    (jsonLookup "id" fields).isNone ||
    (jsonLookup "texto" fields).isNone ||
    (match jsonLookup "opcoes" fields with
     | some (Json.jobj opts) => opts.isEmpty
     | _ => true)
  | _ => true

/-- Whether a list holds a repeated element. -/
def containsDup : List (Option Int) → Bool
  | [] => false
  | x :: xs => xs.contains x || containsDup xs

/-- Modelled from the specification wording of section 4.1, to compare
carregar_perguntas against it: a question resource value is malformed when it
is not a list of questions, some question misses a required field or has an
empty option set, or two questions share an identifier. -/
def specMalformedPerguntas (v : Json) : Bool :=
  match v with
  | Json.jarr qs => qs.any questionBad || containsDup (qs.map questionId)
  | _ => true

/-- A concrete malformed resource: the perguntas list holds two questions
with the same identifier, and their option sets are empty. -/
def recursoMalformado : Resource :=
  Resource.parsed (Json.jobj
    [("perguntas", Json.jarr
      [Json.jobj [("id", Json.jnum 1), ("texto", Json.jstr "P1"),
                  ("opcoes", Json.jobj [])],
       Json.jobj [("id", Json.jnum 1), ("texto", Json.jstr "P2"),
                  ("opcoes", Json.jobj [])]])])

/-- The string content of a named column of a row. -/
def colStr (row : Linha) (col : String) : String :=
  match row.lookup col with
  | some (Cell.str s) => s
  | _ => ""

/-- First-occurrence deduplication, the unique pass of value_counts; seen
accumulates the values already emitted. -/
def dedupFirstAux (seen : List String) : List String → List String
  | [] => []
  | x :: xs =>
    if x ∈ seen then dedupFirstAux seen xs
    else x :: dedupFirstAux (x :: seen) xs

/-- The distinct values of a list in first-occurrence order. -/
def dedupFirst (l : List String) : List String := dedupFirstAux [] l

/-- Insertion into a list kept in descending count order. -/
def insertDesc (x : String × Nat) : List (String × Nat) → List (String × Nat)
  | [] => [x]
  | y :: ys => if y.2 < x.2 then x :: y :: ys else y :: insertDesc x ys

/-- Insertion sort by descending count. -/
def sortDesc (l : List (String × Nat)) : List (String × Nat) :=
  l.foldr insertDesc []

/-- pandas value_counts over a column: one entry per distinct value with its
occurrence count, sorted by descending count (the order among equal counts is
not relied upon). -/
def value_counts (l : List String) : List (String × Nat) :=
  sortDesc ((dedupFirst l).map (fun v => (v, l.count v)))

/-- What the dashboard tab renders: the no-data message when resultados.csv
is absent (FileNotFoundError), otherwise the participant total len(df) and
the value_counts distribution of the carreira_final column. -/
inductive DashboardView where
  | semDados
  | dados (total : Nat) (dist : List (String × Nat))

/-- The dashboard tab as a function of the durable file contents. -/
def dashboard : Option (List Linha) → DashboardView
  | none => DashboardView.semDados
  | some rows =>
    DashboardView.dados rows.length
      (value_counts (rows.map (fun row => colStr row "carreira_final")))

/-! ## Theorems -/

lemma initTally_eq :
    initTally = [("advocacia", 0), ("magistratura", 0),
                 ("ministerio_publico", 0), ("consultoria", 0)] := rfl

/-- Running the tally loop from any tally over the four category codes, on
responses that all select a valid category code, succeeds and adds the number
of responses to the total count. -/
lemma tallyFold_concrete (rs : List String) (h : ∀ r ∈ rs, r ∈ carreiraCodes)
    (n0 n1 n2 n3 : Nat) :
    ∃ m0 m1 m2 m3,
      tallyFold [("advocacia", n0), ("magistratura", n1),
                 ("ministerio_publico", n2), ("consultoria", n3)] rs =
        some [("advocacia", m0), ("magistratura", m1),
              ("ministerio_publico", m2), ("consultoria", m3)] ∧
      m0 + m1 + m2 + m3 = n0 + n1 + n2 + n3 + rs.length := by
  induction rs generalizing n0 n1 n2 n3 with
  | nil => exact ⟨n0, n1, n2, n3, rfl, by simp⟩
  | cons r rest ih =>
    have hr : r ∈ carreiraCodes := h r (List.mem_cons_self _ _)
    have hrest : ∀ x ∈ rest, x ∈ carreiraCodes :=
      fun x hx => h x (List.mem_cons_of_mem _ hx)
    simp only [carreiraCodes, CARREIRAS, List.map, List.mem_cons,
      List.not_mem_nil, or_false] at hr
    rcases hr with h0 | h1 | h2 | h3 <;> subst_vars
    · obtain ⟨m0, m1, m2, m3, ht, hs⟩ := ih hrest (n0 + 1) n1 n2 n3
      refine ⟨m0, m1, m2, m3, ?_, by simp only [List.length_cons]; omega⟩
      simpa [tallyFold, bump] using ht
    · obtain ⟨m0, m1, m2, m3, ht, hs⟩ := ih hrest n0 (n1 + 1) n2 n3
      refine ⟨m0, m1, m2, m3, ?_, by simp only [List.length_cons]; omega⟩
      simpa [tallyFold, bump] using ht
    · obtain ⟨m0, m1, m2, m3, ht, hs⟩ := ih hrest n0 n1 (n2 + 1) n3
      refine ⟨m0, m1, m2, m3, ?_, by simp only [List.length_cons]; omega⟩
      simpa [tallyFold, bump] using ht
    · obtain ⟨m0, m1, m2, m3, ht, hs⟩ := ih hrest n0 n1 n2 (n3 + 1)
      refine ⟨m0, m1, m2, m3, ?_, by simp only [List.length_cons]; omega⟩
      simpa [tallyFold, bump] using ht

/-- C1: for every ResponseSet whose selections are valid category codes,
calcular_resultados succeeds and the sum of the per-category counts of the
returned tally equals the number of responses. -/
theorem C1_tally_sum_eq_responses (respostas : List String)
    (h : ∀ r ∈ respostas, r ∈ carreiraCodes) :
    ∃ t w, calcular_resultados respostas = some (t, w) ∧
      (t.map Prod.snd).sum = respostas.length := by
  obtain ⟨m0, m1, m2, m3, ht, hs⟩ := tallyFold_concrete respostas h 0 0 0 0
  have hcalc : calcular_resultados respostas =
      some ([("advocacia", m0), ("magistratura", m1),
             ("ministerio_publico", m2), ("consultoria", m3)],
            (pyMaxAux ("advocacia", m0)
              [("magistratura", m1), ("ministerio_publico", m2),
               ("consultoria", m3)]).1) := by
    unfold calcular_resultados
    rw [initTally_eq, ht]
    rfl
  exact ⟨_, _, hcalc, by simp; omega⟩

/-- Witness for C1 at a concrete ResponseSet of three valid selections. -/
theorem C1_tally_sum_eq_responses_witness :
    ∃ t w,
      calcular_resultados ["advocacia", "consultoria", "advocacia"] =
        some (t, w) ∧
      (t.map Prod.snd).sum = 3 :=
  C1_tally_sum_eq_responses ["advocacia", "consultoria", "advocacia"] (by decide)

/-- C2: on the empty ResponseSet, calcular_resultados returns the all-zero
tally together with the first category in CARREIRAS definition order,
advocacia, rather than failing. -/
theorem C2_empty_responses :
    calcular_resultados [] =
      some ([("advocacia", 0), ("magistratura", 0),
             ("ministerio_publico", 0), ("consultoria", 0)], "advocacia") := by
  rfl

lemma maxCount_cons (p : String × Nat) (l : List (String × Nat)) :
    maxCount (p :: l) = max p.2 (maxCount l) := rfl

lemma le_maxCount {p : String × Nat} {t : List (String × Nat)} (hp : p ∈ t) :
    p.2 ≤ maxCount t := by
  induction t with
  | nil => cases hp
  | cons q rest ih =>
    rcases List.mem_cons.mp hp with rfl | h
    · rw [maxCount_cons]; exact Nat.le_max_left _ _
    · exact Nat.le_trans (ih h) (by rw [maxCount_cons]; exact Nat.le_max_right _ _)

/-- The Python maximum search returns exactly the first entry whose value
attains the maximum of the list. -/
lemma find?_max_eq_pyMaxAux (b : String × Nat) (l : List (String × Nat)) :
    (b :: l).find? (fun p => p.2 = max b.2 (maxCount l)) = some (pyMaxAux b l) := by
  induction l generalizing b with
  | nil =>
    rw [List.find?_cons_of_pos]
    · rfl
    · simp [maxCount]
  | cons q rest ih =>
    rcases Nat.lt_or_ge b.2 q.2 with hlt | hge
    · have hM : max b.2 (maxCount (q :: rest)) = max q.2 (maxCount rest) := by
        rw [maxCount_cons]; omega
      have hpy : pyMaxAux b (q :: rest) = pyMaxAux q rest := by
        simp [pyMaxAux, hlt]
      rw [List.find?_cons_of_neg
            (p := fun p : String × Nat => decide (p.2 = max b.2 (maxCount (q :: rest)))) _
            (by simp only [decide_eq_true_eq]; rw [maxCount_cons]; omega),
          hpy]
      simp only [hM]
      exact ih q
    · have hM : max b.2 (maxCount (q :: rest)) = max b.2 (maxCount rest) := by
        rw [maxCount_cons]; omega
      have hpy : pyMaxAux b (q :: rest) = pyMaxAux b rest := by
        simp [pyMaxAux, Nat.not_lt.mpr hge]
      rw [hpy]
      simp only [hM]
      by_cases hb : b.2 = max b.2 (maxCount rest)
      · rw [List.find?_cons_of_pos
              (p := fun p : String × Nat => decide (p.2 = max b.2 (maxCount rest))) _
              (by simpa using hb)]
        have hthis := ih b
        rw [List.find?_cons_of_pos
              (p := fun p : String × Nat => decide (p.2 = max b.2 (maxCount rest))) _
              (by simpa using hb)] at hthis
        exact hthis
      · have hblt : b.2 < max b.2 (maxCount rest) :=
          Nat.lt_of_le_of_ne (Nat.le_max_left _ _) hb
        have hq : ¬ (q.2 = max b.2 (maxCount rest)) := by omega
        rw [List.find?_cons_of_neg
              (p := fun p : String × Nat => decide (p.2 = max b.2 (maxCount rest))) _
              (by simpa using hb),
            List.find?_cons_of_neg
              (p := fun p : String × Nat => decide (p.2 = max b.2 (maxCount rest))) _
              (by simpa using hq)]
        have hthis := ih b
        rw [List.find?_cons_of_neg
              (p := fun p : String × Nat => decide (p.2 = max b.2 (maxCount rest))) _
              (by simpa using hb)] at hthis
        exact hthis

lemma bump_keys {t t' : List (String × Nat)} {c : String}
    (h : bump t c = some t') : t'.map Prod.fst = t.map Prod.fst := by
  unfold bump at h
  split at h
  · cases h
    rw [List.map_map]
    exact List.map_congr_left (fun p _ => by by_cases hp : p.1 = c <;> simp [hp])
  · cases h

lemma tallyFold_keys {t0 t : List (String × Nat)} {rs : List String}
    (h : tallyFold t0 rs = some t) : t.map Prod.fst = t0.map Prod.fst := by
  induction rs generalizing t0 with
  | nil =>
    simp only [tallyFold, Option.some.injEq] at h
    rw [h]
  | cons r rest ih =>
    simp only [tallyFold] at h
    by_cases hr : r = ""
    · rw [if_pos hr] at h
      exact ih h
    · rw [if_neg hr] at h
      cases hb : bump t0 r with
      | none => rw [hb] at h; cases h
      | some t1 =>
        rw [hb] at h
        rw [ih h, bump_keys hb]

lemma lookup_eq_of_mem_of_nodupKeys {l : List (String × Nat)} {k : String} {v : Nat}
    (hnd : (l.map Prod.fst).Nodup) (hm : (k, v) ∈ l) : l.lookup k = some v := by
  induction l with
  | nil => cases hm
  | cons q rest ih =>
    rcases List.mem_cons.mp hm with heq | hmem
    · rw [← heq]
      simp [List.lookup]
    · have hk : k ∈ rest.map Prod.fst :=
        List.mem_map.mpr ⟨(k, v), hmem, rfl⟩
      have hq : ¬ (k == q.1) = true := by
        simp only [beq_iff_eq]
        intro hkq
        exact (List.nodup_cons.mp hnd).1 (hkq ▸ hk)
      cases q with
      | mk qk qv =>
        simp only [List.lookup, hq]
        exact ih (List.nodup_cons.mp hnd).2 hmem

/-- Every tally produced by the scorer loop keeps the four CARREIRAS keys in
definition order. -/
lemma tallyFold_keys_carreiras {t : List (String × Nat)} {rs : List String}
    (h : tallyFold initTally rs = some t) : t.map Prod.fst = carreiraCodes := by
  rw [tallyFold_keys h]
  rfl

/-- C3: whenever calcular_resultados returns a tally and a winning category,
the count recorded for the winning category is greater than or equal to the
count of every entry of the tally. -/
theorem C3_winner_count_ge_all (respostas : List String)
    (t : List (String × Nat)) (w : String)
    (h : calcular_resultados respostas = some (t, w)) :
    ∃ v, t.lookup w = some v ∧ ∀ p ∈ t, p.2 ≤ v := by
  unfold calcular_resultados at h
  cases hf : tallyFold initTally respostas with
  | none => rw [hf] at h; cases h
  | some t0 =>
    rw [hf] at h
    cases t0 with
    | nil => cases h
    | cons b l =>
      simp only [pyMax, Option.some.injEq, Prod.mk.injEq] at h
      obtain ⟨rfl, rfl⟩ := h
      have hkeys : ((b :: l).map Prod.fst) = carreiraCodes :=
        tallyFold_keys_carreiras hf
      have hnd : ((b :: l).map Prod.fst).Nodup := by
        rw [hkeys]; decide
      have hfind := find?_max_eq_pyMaxAux b l
      have hmem : pyMaxAux b l ∈ b :: l := List.mem_of_find?_eq_some hfind
      have hval : (pyMaxAux b l).2 = max b.2 (maxCount l) := by
        have := List.find?_some hfind
        simpa using this
      refine ⟨(pyMaxAux b l).2, ?_, ?_⟩
      · exact lookup_eq_of_mem_of_nodupKeys hnd (by simpa using hmem)
      · intro p hp
        have hle := le_maxCount hp
        rw [maxCount_cons] at hle
        rw [hval]
        exact hle

/-- Witness for C3 at the ResponseSet with a single magistratura selection. -/
theorem C3_winner_count_ge_all_witness :
    ∃ v, ([("advocacia", 0), ("magistratura", 1),
           ("ministerio_publico", 0), ("consultoria", 0)] :
            List (String × Nat)).lookup "magistratura" = some v ∧
      ∀ p ∈ ([("advocacia", 0), ("magistratura", 1),
              ("ministerio_publico", 0), ("consultoria", 0)] :
               List (String × Nat)), p.2 ≤ v :=
  C3_winner_count_ge_all ["magistratura"]
    [("advocacia", 0), ("magistratura", 1),
     ("ministerio_publico", 0), ("consultoria", 0)] "magistratura" (by decide)

/-- C9: the winning category is always the first entry of the tally, which is
kept in CARREIRAS definition order, whose count equals the maximum count, so
every tie is broken in favour of the earlier category in definition order. -/
theorem C9_ties_broken_by_definition_order (respostas : List String)
    (t : List (String × Nat)) (w : String)
    (h : calcular_resultados respostas = some (t, w)) :
    t.map Prod.fst = carreiraCodes ∧ primeiraMaxima t = some w := by
  unfold calcular_resultados at h
  cases hf : tallyFold initTally respostas with
  | none => rw [hf] at h; cases h
  | some t0 =>
    rw [hf] at h
    cases t0 with
    | nil => cases h
    | cons b l =>
      simp only [pyMax, Option.some.injEq, Prod.mk.injEq] at h
      obtain ⟨rfl, rfl⟩ := h
      refine ⟨tallyFold_keys_carreiras hf, ?_⟩
      unfold primeiraMaxima
      rw [show maxCount (b :: l) = max b.2 (maxCount l) from rfl,
          find?_max_eq_pyMaxAux b l]
      rfl

/-- Witness for C9 at a tied ResponseSet: magistratura and consultoria both
have one vote, and magistratura, earlier in definition order, wins. -/
theorem C9_ties_broken_by_definition_order_witness :
    ([("advocacia", 0), ("magistratura", 1),
      ("ministerio_publico", 0), ("consultoria", 1)] :
       List (String × Nat)).map Prod.fst = carreiraCodes ∧
      primeiraMaxima [("advocacia", 0), ("magistratura", 1),
                      ("ministerio_publico", 0), ("consultoria", 1)] =
        some "magistratura" :=
  C9_ties_broken_by_definition_order ["consultoria", "magistratura"]
    [("advocacia", 0), ("magistratura", 1),
     ("ministerio_publico", 0), ("consultoria", 1)] "magistratura" (by decide)

/-- C4: for every category of the fixed set, whenever the external call is
unavailable or fails in any way, get_gemini_descricao returns that category's
static fallback description verbatim, and that text is non-empty; being a
total function of the modelled environment, it never raises. -/
theorem C4_fallback_on_failure (env : GeminiEnv) (c : String)
    (hc : c ∈ carreiraCodes) (hfail : geminiCallUnavailable env = true) :
    get_gemini_descricao env c = (DESCRICOES_BASE.lookup c).getD "" ∧
      get_gemini_descricao env c ≠ "" := by
  obtain ⟨g, sk, ek, sr⟩ := env
  have hres : get_gemini_descricao ⟨g, sk, ek, sr⟩ c =
      (DESCRICOES_BASE.lookup c).getD "" := by
    simp only [geminiCallUnavailable, Bool.or_eq_true, Bool.not_eq_true',
      Option.isNone_iff_eq_none] at hfail
    unfold get_gemini_descricao
    rcases hfail with (hg | hk) | hs
    · simp [hg]
    · simp [hk]
    · subst hs
      simp
  refine ⟨hres, ?_⟩
  rw [hres]
  simp only [carreiraCodes, CARREIRAS, List.map, List.mem_cons,
    List.not_mem_nil, or_false] at hc
  rcases hc with h | h | h | h <;> subst_vars <;> decide

/-- Witness for C4: the import succeeded and a key is set, but the external
call raises, for the advocacia category. -/
theorem C4_fallback_on_failure_witness :
    get_gemini_descricao ⟨true, some "key", none, none⟩ "advocacia" =
      (DESCRICOES_BASE.lookup "advocacia").getD "" ∧
      get_gemini_descricao ⟨true, some "key", none, none⟩ "advocacia" ≠ "" :=
  C4_fallback_on_failure ⟨true, some "key", none, none⟩ "advocacia"
    (by decide) (by decide)

lemma percCells_append (l1 l2 : Linha) :
    percCells (l1 ++ l2) = percCells l1 ++ percCells l2 :=
  List.filterMap_append _ _ _

lemma percCells_linhaDe (ts nome cf : String) (resultados : List (String × Nat)) :
    percCells (linhaDe ts nome resultados cf) =
      resultados.map (fun p =>
        (p.2 : ℚ) /
          ((if (resultados.map Prod.snd).sum = 0 then 1
            else (resultados.map Prod.snd).sum : Nat) : ℚ) * 100) := by
  unfold linhaDe
  rw [percCells_append]
  have hhead : percCells [("timestamp", Cell.str ts), ("nome", Cell.str nome),
      ("carreira_final", Cell.str cf)] = [] := rfl
  rw [hhead]
  generalize (if (resultados.map Prod.snd).sum = 0 then 1
    else (resultados.map Prod.snd).sum : Nat) = total
  induction resultados with
  | nil => rfl
  | cons q rest ih =>
    rw [List.flatMap_cons, percCells_append, List.map_cons, ← ih]
    rfl

lemma sum_map_perc (l : List (String × Nat)) (t : ℚ) :
    (l.map (fun p => (p.2 : ℚ) / t * 100)).sum =
      ((l.map Prod.snd).sum : ℚ) / t * 100 := by
  induction l with
  | nil => simp
  | cons q rest ih =>
    simp only [List.map_cons, List.sum_cons, ih]
    push_cast
    ring

/-- C5: in every record built by salvar_resultado_csv, each percentage cell
equals count divided by max(total, 1) times 100, and hence the percentage
columns sum to 100 when the total of counts is positive and to 0 when it is
zero. -/
theorem C5_percentage_shares (ts nome cf : String)
    (resultados : List (String × Nat)) :
    percCells (linhaDe ts nome resultados cf) =
      resultados.map (fun p =>
        (p.2 : ℚ) / ((max (resultados.map Prod.snd).sum 1 : Nat) : ℚ) * 100) ∧
    ((resultados.map Prod.snd).sum ≠ 0 →
      (percCells (linhaDe ts nome resultados cf)).sum = 100) ∧
    ((resultados.map Prod.snd).sum = 0 →
      (percCells (linhaDe ts nome resultados cf)).sum = 0) := by
  have hmax : (if (resultados.map Prod.snd).sum = 0 then 1
      else (resultados.map Prod.snd).sum : Nat) =
      max (resultados.map Prod.snd).sum 1 := by
    by_cases h : (resultados.map Prod.snd).sum = 0
    · simp [h]
    · simp only [if_neg h]
      omega
  refine ⟨?_, ?_, ?_⟩
  · rw [percCells_linhaDe, hmax]
  · intro hs
    rw [percCells_linhaDe, sum_map_perc, hmax]
    have hmax2 : max (resultados.map Prod.snd).sum 1 =
        (resultados.map Prod.snd).sum := by omega
    rw [hmax2, div_self (by exact_mod_cast hs)]
    norm_num
  · intro hs
    rw [percCells_linhaDe, sum_map_perc, hs]
    norm_num

/-- Witness for C5: a three-answer tally sums to 100 percent and the all-zero
tally sums to 0 percent. -/
theorem C5_percentage_shares_witness :
    (percCells (linhaDe "t" "n"
      [("advocacia", 2), ("magistratura", 1),
       ("ministerio_publico", 0), ("consultoria", 0)] "advocacia")).sum = 100 ∧
    (percCells (linhaDe "t" "n"
      [("advocacia", 0), ("magistratura", 0),
       ("ministerio_publico", 0), ("consultoria", 0)] "advocacia")).sum = 0 :=
  ⟨(C5_percentage_shares "t" "n" "advocacia"
      [("advocacia", 2), ("magistratura", 1),
       ("ministerio_publico", 0), ("consultoria", 0)]).2.1 (by decide),
   (C5_percentage_shares "t" "n" "advocacia"
      [("advocacia", 0), ("magistratura", 0),
       ("ministerio_publico", 0), ("consultoria", 0)]).2.2 (by decide)⟩

lemma map_fst_flatMap (resultados : List (String × Nat))
    (f : String × Nat → ℚ) :
    (resultados.flatMap (fun p =>
        [("pontos_" ++ p.1, Cell.nat p.2),
         ("perc_" ++ p.1, Cell.rat (f p))])).map Prod.fst =
      (resultados.map Prod.fst).flatMap
        (fun c => ["pontos_" ++ c, "perc_" ++ c]) := by
  induction resultados with
  | nil => rfl
  | cons q rest ih =>
    simp [List.flatMap_cons, ih]

lemma colunas_linhaDe (ts nome cf : String) (resultados : List (String × Nat)) :
    colunas (linhaDe ts nome resultados cf) =
      ["timestamp", "nome", "carreira_final"]
        ++ (resultados.map Prod.fst).flatMap
             (fun c => ["pontos_" ++ c, "perc_" ++ c]) := by
  unfold colunas linhaDe
  rw [List.map_append]
  congr 1
  exact map_fst_flatMap resultados _

/-- Appending onto an existing log preserves every existing row verbatim and
adds the new rows in order. -/
lemma runLog_some (subs : List Submissao) (rows0 : List Linha) :
    runLog subs (some rows0) = some (rows0 ++ subs.map linhaSubmissao) := by
  induction subs generalizing rows0 with
  | nil => simp [runLog]
  | cons sub rest ih =>
    rw [runLog, salvar_resultado_csv]
    rw [ih]
    simp

/-- C6: starting from an absent log, appending a non-empty sequence of
submissions yields exactly one row per submission, in append order, never
mutating or deleting a previously appended row, and every row of every
intermediate log built from CARREIRAS-keyed tallies carries the same fixed
column set, with a pontos_ and a perc_ column for every category. -/
theorem C6_append_only_log (subs : List Submissao) (hne : subs ≠ [])
    (h : ∀ sub ∈ subs, sub.resultados.map Prod.fst = carreiraCodes) :
    runLog subs none = some (subs.map linhaSubmissao) ∧
    (subs.map linhaSubmissao).length = subs.length ∧
    (∀ rows0, runLog subs (some rows0) =
      some (rows0 ++ subs.map linhaSubmissao)) ∧
    (∀ row ∈ subs.map linhaSubmissao, colunas row = colunasFixas) ∧
    (∀ c ∈ carreiraCodes, ("pontos_" ++ c) ∈ colunasFixas ∧
      ("perc_" ++ c) ∈ colunasFixas) := by
  refine ⟨?_, List.length_map _ _, fun rows0 => runLog_some subs rows0, ?_, ?_⟩
  · cases subs with
    | nil => exact absurd rfl hne
    | cons sub rest =>
      rw [runLog, salvar_resultado_csv]
      rw [runLog_some]
      rfl
  · intro row hrow
    obtain ⟨sub, hsub, rfl⟩ := List.mem_map.mp hrow
    unfold linhaSubmissao
    rw [colunas_linhaDe, h sub hsub]
    rfl
  · decide

/-- Witness for C6 at two concrete submissions. -/
theorem C6_append_only_log_witness :
    runLog [⟨"t1", "ana",
             [("advocacia", 1), ("magistratura", 0),
              ("ministerio_publico", 0), ("consultoria", 0)], "advocacia"⟩,
            ⟨"t2", "",
             [("advocacia", 0), ("magistratura", 2),
              ("ministerio_publico", 0), ("consultoria", 0)], "magistratura"⟩]
        none =
      some ([⟨"t1", "ana",
              [("advocacia", 1), ("magistratura", 0),
               ("ministerio_publico", 0), ("consultoria", 0)], "advocacia"⟩,
             ⟨"t2", "",
              [("advocacia", 0), ("magistratura", 2),
               ("ministerio_publico", 0), ("consultoria", 0)],
              "magistratura"⟩].map linhaSubmissao) ∧
    ([(⟨"t1", "ana",
        [("advocacia", 1), ("magistratura", 0),
         ("ministerio_publico", 0), ("consultoria", 0)], "advocacia"⟩ :
          Submissao),
      ⟨"t2", "",
       [("advocacia", 0), ("magistratura", 2),
        ("ministerio_publico", 0), ("consultoria", 0)],
       "magistratura"⟩].map linhaSubmissao).length = 2 ∧
    (∀ rows0,
      runLog [⟨"t1", "ana",
               [("advocacia", 1), ("magistratura", 0),
                ("ministerio_publico", 0), ("consultoria", 0)], "advocacia"⟩,
              ⟨"t2", "",
               [("advocacia", 0), ("magistratura", 2),
                ("ministerio_publico", 0), ("consultoria", 0)],
               "magistratura"⟩] (some rows0) =
        some (rows0 ++
          [⟨"t1", "ana",
            [("advocacia", 1), ("magistratura", 0),
             ("ministerio_publico", 0), ("consultoria", 0)], "advocacia"⟩,
           ⟨"t2", "",
            [("advocacia", 0), ("magistratura", 2),
             ("ministerio_publico", 0), ("consultoria", 0)],
            "magistratura"⟩].map linhaSubmissao)) ∧
    (∀ row ∈ [(⟨"t1", "ana",
               [("advocacia", 1), ("magistratura", 0),
                ("ministerio_publico", 0), ("consultoria", 0)], "advocacia"⟩ :
                 Submissao),
              ⟨"t2", "",
               [("advocacia", 0), ("magistratura", 2),
                ("ministerio_publico", 0), ("consultoria", 0)],
               "magistratura"⟩].map linhaSubmissao,
      colunas row = colunasFixas) ∧
    (∀ c ∈ carreiraCodes, ("pontos_" ++ c) ∈ colunasFixas ∧
      ("perc_" ++ c) ∈ colunasFixas) :=
  C6_append_only_log
    [⟨"t1", "ana",
      [("advocacia", 1), ("magistratura", 0),
       ("ministerio_publico", 0), ("consultoria", 0)], "advocacia"⟩,
     ⟨"t2", "",
      [("advocacia", 0), ("magistratura", 2),
       ("ministerio_publico", 0), ("consultoria", 0)], "magistratura"⟩]
    (by decide) (by decide)

/-- C7 counterexample: on a resource whose question list is malformed in the
spec sense (duplicate identifiers, empty option sets), carregar_perguntas
does not fail: it returns the question list unchanged. -/
theorem C7_counterexample_no_validation :
    carregar_perguntas recursoMalformado =
      Except.ok (Json.jarr
        [Json.jobj [("id", Json.jnum 1), ("texto", Json.jstr "P1"),
                    ("opcoes", Json.jobj [])],
         Json.jobj [("id", Json.jnum 1), ("texto", Json.jstr "P2"),
                    ("opcoes", Json.jobj [])]]) ∧
    specMalformedPerguntas (Json.jarr
        [Json.jobj [("id", Json.jnum 1), ("texto", Json.jstr "P1"),
                    ("opcoes", Json.jobj [])],
         Json.jobj [("id", Json.jnum 1), ("texto", Json.jstr "P2"),
                    ("opcoes", Json.jobj [])]]) = true :=
  ⟨rfl, rfl⟩

/-- C7 amended: carregar_perguntas fails exactly when the resource is missing,
not decodable, not a JSON object, or lacks the perguntas key; when the key is
present it returns its value as-is, with no validation of the individual
questions. -/
theorem C7_amended_failure_conditions :
    carregar_perguntas Resource.missing = Except.error LoadError.fileNotFound ∧
    carregar_perguntas Resource.invalidJson =
      Except.error LoadError.jsonDecodeError ∧
    (∀ fields, jsonLookup "perguntas" fields = none →
      carregar_perguntas (Resource.parsed (Json.jobj fields)) =
        Except.error LoadError.keyError) ∧
    (∀ fields v, jsonLookup "perguntas" fields = some v →
      carregar_perguntas (Resource.parsed (Json.jobj fields)) =
        Except.ok v) := by
  refine ⟨rfl, rfl, ?_, ?_⟩
  · intro fields hnone
    simp only [carregar_perguntas]
    rw [hnone]
  · intro fields v hsome
    simp only [carregar_perguntas]
    rw [hsome]

lemma mem_insertDesc {p x : String × Nat} {l : List (String × Nat)} :
    p ∈ insertDesc x l ↔ p = x ∨ p ∈ l := by
  induction l with
  | nil => simp [insertDesc]
  | cons y ys ih =>
    by_cases h : y.2 < x.2
    · simp [insertDesc, h]
    · simp only [insertDesc, if_neg h, List.mem_cons, ih]
      tauto

lemma mem_sortDesc {p : String × Nat} {l : List (String × Nat)} :
    p ∈ sortDesc l ↔ p ∈ l := by
  induction l with
  | nil => simp [sortDesc]
  | cons y ys ih =>
    show p ∈ insertDesc y (sortDesc ys) ↔ _
    rw [mem_insertDesc, ih]
    simp

lemma sorted_insertDesc {x : String × Nat} {l : List (String × Nat)}
    (h : l.Pairwise (fun a b => b.2 ≤ a.2)) :
    (insertDesc x l).Pairwise (fun a b => b.2 ≤ a.2) := by
  induction l with
  | nil => simp [insertDesc]
  | cons y ys ih =>
    obtain ⟨hy, hys⟩ := List.pairwise_cons.mp h
    by_cases hlt : y.2 < x.2
    · simp only [insertDesc, if_pos hlt]
      refine List.pairwise_cons.mpr ⟨?_, h⟩
      intro b hb
      rcases List.mem_cons.mp hb with rfl | hb
      · omega
      · exact Nat.le_trans (hy b hb) (by omega)
    · simp only [insertDesc, if_neg hlt]
      refine List.pairwise_cons.mpr ⟨?_, ih hys⟩
      intro b hb
      rcases mem_insertDesc.mp hb with rfl | hb
      · omega
      · exact hy b hb

lemma sorted_sortDesc (l : List (String × Nat)) :
    (sortDesc l).Pairwise (fun a b => b.2 ≤ a.2) := by
  induction l with
  | nil => simp [sortDesc]
  | cons y ys ih => exact sorted_insertDesc ih

lemma mem_of_mem_dedupFirstAux {x : String} {seen l : List String}
    (h : x ∈ dedupFirstAux seen l) : x ∈ l := by
  induction l generalizing seen with
  | nil => cases h
  | cons y ys ih =>
    by_cases hy : y ∈ seen
    · simp only [dedupFirstAux, if_pos hy] at h
      exact List.mem_cons_of_mem _ (ih h)
    · simp only [dedupFirstAux, if_neg hy] at h
      rcases List.mem_cons.mp h with rfl | h
      · exact List.mem_cons_self _ _
      · exact List.mem_cons_of_mem _ (ih h)

lemma mem_dedupFirstAux_of_mem {x : String} {seen l : List String}
    (hx : x ∈ l) (hseen : x ∉ seen) : x ∈ dedupFirstAux seen l := by
  induction l generalizing seen with
  | nil => cases hx
  | cons y ys ih =>
    by_cases hy : y ∈ seen
    · simp only [dedupFirstAux, if_pos hy]
      rcases List.mem_cons.mp hx with rfl | hx
      · exact absurd hy hseen
      · exact ih hx hseen
    · simp only [dedupFirstAux, if_neg hy]
      rcases List.mem_cons.mp hx with rfl | hx
      · exact List.mem_cons_self _ _
      · by_cases hxy : x = y
        · subst hxy
          exact List.mem_cons_self _ _
        · refine List.mem_cons_of_mem _ (ih hx ?_)
          simp only [List.mem_cons]
          tauto

/-- C8: when the durable log file is absent the dashboard shows the no-data
state rather than raising, and when it exists the reported participant total
is the number of rows of the log. -/
theorem C8_dashboard_absent_and_total :
    dashboard none = DashboardView.semDados ∧
    ∀ rows, dashboard (some rows) =
      DashboardView.dados rows.length
        (value_counts (rows.map (fun row => colStr row "carreira_final"))) :=
  ⟨rfl, fun _ => rfl⟩

/-- C10: every entry of the dashboard distribution is a category that won at
least one logged row, carrying its exact win count (so zero-win categories
are omitted), every winner value of the log has an entry, and the entries are
ordered by descending win count. -/
theorem C10_distribution_nonzero_sorted (rows : List Linha)
    (total : Nat) (dist : List (String × Nat))
    (h : dashboard (some rows) = DashboardView.dados total dist) :
    (∀ p ∈ dist, 0 < p.2 ∧
      p.2 = (rows.map (fun row => colStr row "carreira_final")).count p.1) ∧
    (∀ c ∈ rows.map (fun row => colStr row "carreira_final"),
      ∃ k, (c, k) ∈ dist) ∧
    dist.Pairwise (fun a b => b.2 ≤ a.2) := by
  rw [show dashboard (some rows) =
        DashboardView.dados rows.length
          (value_counts (rows.map (fun row => colStr row "carreira_final")))
      from rfl] at h
  injection h with h1 h2
  subst h2
  refine ⟨?_, ?_, sorted_sortDesc _⟩
  · intro p hp
    obtain ⟨v, hv, rfl⟩ := List.mem_map.mp (mem_sortDesc.mp hp)
    have hvw : v ∈ rows.map (fun row => colStr row "carreira_final") :=
      mem_of_mem_dedupFirstAux hv
    refine ⟨Nat.pos_of_ne_zero (fun h0 => ?_), rfl⟩
    exact List.count_eq_zero.mp h0 hvw
  · intro c hc
    exact ⟨_, mem_sortDesc.mpr (List.mem_map.mpr
      ⟨c, mem_dedupFirstAux_of_mem hc (List.not_mem_nil c), rfl⟩)⟩

/-- Witness for C10 at a three-row log: advocacia won twice, consultoria
once, magistratura and ministerio_publico never, and the distribution lists
advocacia then consultoria only. -/
theorem C10_distribution_nonzero_sorted_witness :
    (∀ p ∈ ([("advocacia", 2), ("consultoria", 1)] : List (String × Nat)),
      0 < p.2 ∧
      p.2 = (([[("carreira_final", Cell.str "advocacia")],
               [("carreira_final", Cell.str "advocacia")],
               [("carreira_final", Cell.str "consultoria")]] : List Linha).map
               (fun row => colStr row "carreira_final")).count p.1) ∧
    (∀ c ∈ ([[("carreira_final", Cell.str "advocacia")],
             [("carreira_final", Cell.str "advocacia")],
             [("carreira_final", Cell.str "consultoria")]] : List Linha).map
             (fun row => colStr row "carreira_final"),
      ∃ k, (c, k) ∈ ([("advocacia", 2), ("consultoria", 1)] :
        List (String × Nat))) ∧
    ([("advocacia", 2), ("consultoria", 1)] :
      List (String × Nat)).Pairwise (fun a b => b.2 ≤ a.2) :=
  C10_distribution_nonzero_sorted
    [[("carreira_final", Cell.str "advocacia")],
     [("carreira_final", Cell.str "advocacia")],
     [("carreira_final", Cell.str "consultoria")]]
    3 [("advocacia", 2), ("consultoria", 1)] rfl

/-- Witness for the amended C7 at the malformed resource: its perguntas value
is returned unvalidated. -/
theorem C7_amended_failure_conditions_witness :
    carregar_perguntas (Resource.parsed (Json.jobj
      [("perguntas", Json.jarr
        [Json.jobj [("id", Json.jnum 1), ("texto", Json.jstr "P1"),
                    ("opcoes", Json.jobj [])],
         Json.jobj [("id", Json.jnum 1), ("texto", Json.jstr "P2"),
                    ("opcoes", Json.jobj [])]])])) =
      Except.ok (Json.jarr
        [Json.jobj [("id", Json.jnum 1), ("texto", Json.jstr "P1"),
                    ("opcoes", Json.jobj [])],
         Json.jobj [("id", Json.jnum 1), ("texto", Json.jstr "P2"),
                    ("opcoes", Json.jobj [])]]) :=
  C7_amended_failure_conditions.2.2.2 _ _ rfl

end QuizApp

